import Mathlib

/-!
Shallow embedding of `src/db/models/two_factor_incomplete.rs` (vaultwarden).

The `twofactor_incomplete` table is modelled as a `List` of rows; the
persistence collaborator's primary key on (`user_uuid`, `device_uuid`) is
modelled inside the insert primitive, which rejects a duplicate key.
Storage faults are modelled by explicit `Bool` fault flags, one per storage
call an operation makes: `true` means the underlying diesel call failed.
`db_run!` calls that end in `map_res(msg)` turn a failed call into
`Except.error msg`; the call in `find_by_user_and_device` ends in `.ok()`
(failure becomes `none`); the call in `find_logins_before` ends in
`.expect(msg)` (failure aborts the process, modelled by `LoadResult.panicked`).
The global `CONFIG` reads (`incomplete_2fa_time_limit()`, `mail_enabled()`)
are passed in as an explicit `Config` value, and the `Utc::now()` clock read
in `mark_incomplete` is the explicit `now` parameter.
-/

namespace Vaultwarden

/-- One row of the `twofactor_incomplete` table (struct `TwoFactorIncomplete`).
`UserId` and `DeviceId` are opaque string newtypes in the source; timestamps
(`NaiveDateTime`) are modelled as integers, `i32` as `Int`, and the
`ip.ip.to_string()` value as a string. -/
structure TwoFactorIncomplete where
  user_uuid : String
  device_uuid : String
  device_name : String
  device_type : Int
  login_time : Int
  ip_address : String
deriving DecidableEq, Repr

/-- The table contents: the state held by the persistence collaborator. -/
abbrev Db := List TwoFactorIncomplete

/-- The two `CONFIG` switches read by `mark_incomplete` / `mark_complete`. -/
structure Config where
  incomplete_2fa_time_limit : Int
  mail_enabled : Bool
deriving DecidableEq, Repr

/-- The guard `CONFIG.incomplete_2fa_time_limit() <= 0 || !CONFIG.mail_enabled()`
shared by `mark_incomplete` and `mark_complete`. -/
def featureDisabled (cfg : Config) : Bool :=
  cfg.incomplete_2fa_time_limit ≤ 0 || !cfg.mail_enabled

/-- The row filter
`user_uuid.eq(user_uuid).and(device_uuid.eq(device_uuid))` used by the
point lookup and the keyed delete. -/
def sameKey (u d : String) (r : TwoFactorIncomplete) : Bool :=
  r.user_uuid == u && r.device_uuid == d

namespace TwoFactorIncomplete

/-- The `diesel::insert_into(twofactor_incomplete::table).values(...)` call of
`mark_incomplete`. The table's primary key is (`user_uuid`, `device_uuid`),
so the store rejects a duplicate-key insert; `map_res` surfaces any diesel
failure as the fixed message of the source. -/
def insertInto (r : TwoFactorIncomplete) (db : Db) : Except String Db :=
  if db.any (sameKey r.user_uuid r.device_uuid) then
    Except.error "Error adding twofactor_incomplete record"
  else
    Except.ok (db ++ [r])

/-- `find_by_user_and_device`: a `SELECT ... .first(...).ok()`.  A storage
fault makes `first` return `Err`, and `.ok()` maps any `Err` — fault or
genuine not-found — to `None`. -/
def find_by_user_and_device (u d : String) (fault : Bool) (db : Db) :
    Option TwoFactorIncomplete :=
  if fault then none else db.find? (sameKey u d)

/-- Result of `find_logins_before`, whose `db_run!` body ends in
`.expect("Error loading twofactor_incomplete")`: a storage fault does not
produce an error value but aborts. -/
inductive LoadResult where
  | rows (items : List TwoFactorIncomplete)
  | panicked (msg : String)
deriving DecidableEq, Repr

/-- `find_logins_before`: `SELECT` of all rows with `login_time.lt(dt)`. -/
def find_logins_before (dt : Int) (fault : Bool) (db : Db) : LoadResult :=
  if fault then LoadResult.panicked "Error loading twofactor_incomplete"
  else LoadResult.rows (db.filter (fun r => r.login_time < dt))

/-- `mark_incomplete`: feature gate, then existence check via
`find_by_user_and_device`, then conditional insert.  `findFault` and
`insertFault` are the fault flags of the two storage calls; `now` is the
`Utc::now().naive_utc()` read.  Returns the new table state on `Ok(())`. -/
def mark_incomplete (cfg : Config) (u d device_name : String) (device_type : Int)
    (ip : String) (now : Int) (findFault insertFault : Bool) (db : Db) :
    Except String Db :=
  if featureDisabled cfg then Except.ok db
  else
    match find_by_user_and_device u d findFault db with
    | some _ => Except.ok db
    | none =>
        if insertFault then Except.error "Error adding twofactor_incomplete record"
        else insertInto ⟨u, d, device_name, device_type, now, ip⟩ db

/-- `delete_by_user_and_device`: `diesel::delete` of the rows matching the
exact key, `map_res` on failure. -/
def delete_by_user_and_device (u d : String) (fault : Bool) (db : Db) :
    Except String Db :=
  if fault then
    Except.error "Error in twofactor_incomplete::delete_by_user_and_device()"
  else
    Except.ok (db.filter (fun r => !sameKey u d r))

/-- `mark_complete`: feature gate, then `delete_by_user_and_device`. -/
def mark_complete (cfg : Config) (u d : String) (fault : Bool) (db : Db) :
    Except String Db :=
  if featureDisabled cfg then Except.ok db
  else delete_by_user_and_device u d fault db

/-- `delete(self)`: delegates to `delete_by_user_and_device` on `self`'s key. -/
def delete (r : TwoFactorIncomplete) (fault : Bool) (db : Db) : Except String Db :=
  delete_by_user_and_device r.user_uuid r.device_uuid fault db

/-- `delete_all_by_user`: `diesel::delete` of all rows with the given
`user_uuid`, `map_res` on failure.  Note: no config gate. -/
def delete_all_by_user (u : String) (fault : Bool) (db : Db) : Except String Db :=
  if fault then
    Except.error "Error in twofactor_incomplete::delete_all_by_user()"
  else
    Except.ok (db.filter (fun r => !(r.user_uuid == u)))

end TwoFactorIncomplete

open TwoFactorIncomplete

/-- One call to the store, used to state state-invariant preservation over
every operation of the impl block. -/
inductive Op where
  | markIncomplete (cfg : Config) (u d device_name : String) (device_type : Int)
      (ip : String) (now : Int) (findFault insertFault : Bool)
  | markComplete (cfg : Config) (u d : String) (fault : Bool)
  | deleteOne (r : TwoFactorIncomplete) (fault : Bool)
  | deleteByUserAndDevice (u d : String) (fault : Bool)
  | deleteAllByUser (u : String) (fault : Bool)
  | findByUserAndDevice (u d : String) (fault : Bool)
  | findLoginsBefore (dt : Int) (fault : Bool)

/-- Effect of one call on the table state.  The two find operations run plain
`SELECT`s, so they leave the table unchanged. -/
def applyOp : Op → Db → Except String Db
  | Op.markIncomplete cfg u d n ty ip now ff insf, db =>
      mark_incomplete cfg u d n ty ip now ff insf db
  | Op.markComplete cfg u d f, db => mark_complete cfg u d f db
  | Op.deleteOne r f, db => TwoFactorIncomplete.delete r f db
  | Op.deleteByUserAndDevice u d f, db => delete_by_user_and_device u d f db
  | Op.deleteAllByUser u f, db => delete_all_by_user u f db
  | Op.findByUserAndDevice _ _ _, db => Except.ok db
  | Op.findLoginsBefore _ _, db => Except.ok db

/-- At most one row per (`user_uuid`, `device_uuid`): the table's primary-key
invariant. -/
def KeyUnique (db : Db) : Prop :=
  db.Pairwise (fun a b => ¬(a.user_uuid = b.user_uuid ∧ a.device_uuid = b.device_uuid))

/-- Table states reachable from the empty table through successful calls. -/
inductive Reachable : Db → Prop where
  | nil : Reachable []
  | step {db db' : Db} (op : Op) : Reachable db → applyOp op db = Except.ok db' →
      Reachable db'

/-! ### Helper lemmas about the storage primitives -/

theorem find?_append_of_none {α : Type} {p : α → Bool} {l₁ l₂ : List α}
    (h : l₁.find? p = none) : (l₁ ++ l₂).find? p = l₂.find? p := by
  induction l₁ with
  | nil => rfl
  | cons a l ih =>
      rw [List.cons_append, List.find?_cons] at *
      cases hpa : p a with
      | true => simp [hpa] at h
      | false =>
          simp only [hpa] at h ⊢
          exact ih h

theorem find_by_user_and_device_some_key {u d : String} {db : Db}
    {r : TwoFactorIncomplete}
    (h : find_by_user_and_device u d false db = some r) :
    r ∈ db ∧ r.user_uuid = u ∧ r.device_uuid = d := by
  unfold find_by_user_and_device at h
  simp only [if_neg (by simp : ¬(false = true))] at h
  refine ⟨List.mem_of_find?_eq_some h, ?_⟩
  have hp := List.find?_some h
  simpa [sameKey] using hp

theorem find_by_user_and_device_filter_not_key (u d : String) (db : Db) :
    find_by_user_and_device u d false (db.filter (fun r => !sameKey u d r)) = none := by
  unfold find_by_user_and_device
  simp only [if_neg (by simp : ¬(false = true))]
  rw [List.find?_eq_none]
  intro x hx
  have := (List.mem_filter.mp hx).2
  simpa using this

theorem keyUnique_of_sublist {db db' : Db} (hsub : db'.Sublist db)
    (h : KeyUnique db) : KeyUnique db' :=
  List.Pairwise.sublist hsub h

/-- Preservation: every successful call of the impl block keeps the at-most-one
row-per-key invariant. -/
theorem keyUnique_applyOp (op : Op) (db db' : Db)
    (hu : KeyUnique db) (h : applyOp op db = Except.ok db') : KeyUnique db' := by
  cases op with
  | markIncomplete cfg u d n ty ip now ff insf =>
      simp only [applyOp, mark_incomplete] at h
      by_cases hdis : featureDisabled cfg = true
      · rw [if_pos hdis] at h
        cases h
        exact hu
      · rw [if_neg hdis] at h
        cases hfind : find_by_user_and_device u d ff db with
        | some r =>
            rw [hfind] at h
            cases h
            exact hu
        | none =>
            rw [hfind] at h
            cases hinsf : insf with
            | true => rw [if_pos (by simp [hinsf])] at h; cases h
            | false =>
                rw [if_neg (by simp [hinsf])] at h
                unfold insertInto at h
                by_cases hany :
                    db.any (sameKey u d) = true
                · rw [if_pos (by simpa using hany)] at h; cases h
                · rw [if_neg (by simpa using hany)] at h
                  cases h
                  rw [KeyUnique, List.pairwise_append]
                  refine ⟨hu, List.pairwise_singleton _ _, ?_⟩
                  intro a ha b hb
                  have hb' : b = (⟨u, d, n, ty, now, ip⟩ : TwoFactorIncomplete) := by
                    simpa using hb
                  subst hb'
                  intro hcontra
                  apply hany
                  rw [List.any_eq_true]
                  exact ⟨a, ha, by simp [sameKey, hcontra.1, hcontra.2]⟩
  | markComplete cfg u d f =>
      simp only [applyOp, mark_complete] at h
      by_cases hdis : featureDisabled cfg = true
      · rw [if_pos hdis] at h; cases h; exact hu
      · rw [if_neg hdis] at h
        unfold delete_by_user_and_device at h
        cases f with
        | true => simp at h
        | false =>
            simp only [if_neg (by simp : ¬(false = true))] at h
            cases h
            exact keyUnique_of_sublist (List.filter_sublist db) hu
  | deleteOne r f =>
      simp only [applyOp, TwoFactorIncomplete.delete, delete_by_user_and_device] at h
      cases f with
      | true => simp at h
      | false =>
          simp only [if_neg (by simp : ¬(false = true))] at h
          cases h
          exact keyUnique_of_sublist (List.filter_sublist db) hu
  | deleteByUserAndDevice u d f =>
      simp only [applyOp, delete_by_user_and_device] at h
      cases f with
      | true => simp at h
      | false =>
          simp only [if_neg (by simp : ¬(false = true))] at h
          cases h
          exact keyUnique_of_sublist (List.filter_sublist db) hu
  | deleteAllByUser u f =>
      simp only [applyOp, delete_all_by_user] at h
      cases f with
      | true => simp at h
      | false =>
          simp only [if_neg (by simp : ¬(false = true))] at h
          cases h
          exact keyUnique_of_sublist (List.filter_sublist db) hu
  | findByUserAndDevice u d f =>
      simp only [applyOp] at h
      cases h
      exact hu
  | findLoginsBefore dt f =>
      simp only [applyOp] at h
      cases h
      exact hu

/-! ### Claims -/

/-- C1: once a record exists for a key, a later `mark_incomplete` for the same
key (any timestamp `t2 > t1`, any device name) succeeds and leaves the store —
and so every field of the record, in particular `login_time` and
`device_name` — unchanged. -/
theorem mark_incomplete_write_once (cfg : Config)
    (u d n1 ip1 n2 ip2 : String) (ty1 ty2 t1 t2 : Int) (db : Db)
    (hen : featureDisabled cfg = false)
    (habs : find_by_user_and_device u d false db = none)
    (_hlt : t1 < t2) :
    ∃ db1,
      mark_incomplete cfg u d n1 ty1 ip1 t1 false false db = Except.ok db1 ∧
      mark_incomplete cfg u d n2 ty2 ip2 t2 false false db1 = Except.ok db1 ∧
      (find_by_user_and_device u d false db1).map (fun r => r.login_time) = some t1 ∧
      (find_by_user_and_device u d false db1).map (fun r => r.device_name) = some n1 := by
  have hfind : db.find? (sameKey u d) = none := by
    simpa [find_by_user_and_device] using habs
  have hany : db.any (sameKey u d) = false := by
    rw [← Bool.not_eq_true, List.any_eq_true]
    rintro ⟨x, hx, hpx⟩
    exact (List.find?_eq_none.mp hfind x hx) hpx
  refine ⟨db ++ [⟨u, d, n1, ty1, t1, ip1⟩], ?_, ?_, ?_, ?_⟩
  · simp [mark_incomplete, hen, habs, insertInto, hany]
  · have hfind1 : find_by_user_and_device u d false
        (db ++ [⟨u, d, n1, ty1, t1, ip1⟩]) = some ⟨u, d, n1, ty1, t1, ip1⟩ := by
      simp only [find_by_user_and_device, Bool.false_eq_true, if_false]
      rw [find?_append_of_none hfind]
      simp [sameKey]
    simp [mark_incomplete, hen, hfind1]
  · have hfind1 : find_by_user_and_device u d false
        (db ++ [⟨u, d, n1, ty1, t1, ip1⟩]) = some ⟨u, d, n1, ty1, t1, ip1⟩ := by
      simp only [find_by_user_and_device, Bool.false_eq_true, if_false]
      rw [find?_append_of_none hfind]
      simp [sameKey]
    rw [hfind1]
    rfl
  · have hfind1 : find_by_user_and_device u d false
        (db ++ [⟨u, d, n1, ty1, t1, ip1⟩]) = some ⟨u, d, n1, ty1, t1, ip1⟩ := by
      simp only [find_by_user_and_device, Bool.false_eq_true, if_false]
      rw [find?_append_of_none hfind]
      simp [sameKey]
    rw [hfind1]
    rfl

/-- Witness for C1 at a concrete enabled config, empty store, key (u1, d1),
timestamps 100 then 110. -/
theorem mark_incomplete_write_once_witness :
    ∃ db1,
      mark_incomplete ⟨900, true⟩ "u1" "d1" "Chrome" 9 "1.2.3.4" 100 false false []
        = Except.ok db1 ∧
      mark_incomplete ⟨900, true⟩ "u1" "d1" "Firefox" 3 "5.6.7.8" 110 false false db1
        = Except.ok db1 ∧
      (find_by_user_and_device "u1" "d1" false db1).map (fun r => r.login_time)
        = some 100 ∧
      (find_by_user_and_device "u1" "d1" false db1).map (fun r => r.device_name)
        = some "Chrome" :=
  mark_incomplete_write_once ⟨900, true⟩ "u1" "d1" "Chrome" "1.2.3.4" "Firefox"
    "5.6.7.8" 9 3 100 110 [] (by decide) (by rfl) (by decide)

/-- C2: every table state reachable from the empty table through successful
calls of the impl block satisfies the at-most-one-record-per-(user, device)
invariant; each operation preserves it. -/
theorem reachable_keyUnique (db : Db) (h : Reachable db) : KeyUnique db := by
  induction h with
  | nil => exact List.Pairwise.nil
  | step op hpre hok ih => exact keyUnique_applyOp op _ _ ih hok

/-- Witness for C2: the invariant holds of a store reached by one successful
`mark_incomplete`. -/
theorem reachable_keyUnique_witness :
    KeyUnique [⟨"u1", "d1", "Chrome", 9, 100, "1.2.3.4"⟩] :=
  reachable_keyUnique _
    (Reachable.step
      (Op.markIncomplete ⟨900, true⟩ "u1" "d1" "Chrome" 9 "1.2.3.4" 100 false false)
      Reachable.nil (by rfl))

/-- C3: with the feature disabled (`incomplete_2fa_time_limit ≤ 0` or mail
off), `mark_incomplete` returns `Ok` and performs no storage work — the fault
flags of both storage calls are irrelevant and the table is returned
unchanged — so a key absent before is still absent afterwards. -/
theorem mark_incomplete_disabled_noop (cfg : Config) (u d n : String) (ty : Int)
    (ip : String) (t : Int) (ff insf : Bool) (db : Db)
    (hdis : featureDisabled cfg = true)
    (habs : find_by_user_and_device u d false db = none) :
    mark_incomplete cfg u d n ty ip t ff insf db = Except.ok db ∧
    find_by_user_and_device u d false db = none :=
  ⟨by simp [mark_incomplete, hdis], habs⟩

/-- Witness for C3: time limit 0 disables the feature; both fault flags set,
yet the call succeeds on the empty store and the key stays absent. -/
theorem mark_incomplete_disabled_noop_witness :
    mark_incomplete ⟨0, true⟩ "u1" "d1" "Chrome" 9 "1.2.3.4" 100 true true []
      = Except.ok [] ∧
    find_by_user_and_device "u1" "d1" false [] = none :=
  mark_incomplete_disabled_noop ⟨0, true⟩ "u1" "d1" "Chrome" 9 "1.2.3.4" 100
    true true [] (by decide) (by rfl)

/-- C4 counterexample: with `incomplete_2fa_time_limit = 0` the feature is
disabled, so `mark_complete` succeeds without deleting; `find` still returns
the record afterwards, contradicting "mark_resolved followed by find returns
none regardless". -/
theorem mark_complete_disabled_keeps_record :
    mark_complete ⟨0, true⟩ "u1" "d1" false
      [⟨"u1", "d1", "Chrome", 9, 100, "1.2.3.4"⟩]
      = Except.ok [⟨"u1", "d1", "Chrome", 9, 100, "1.2.3.4"⟩] ∧
    find_by_user_and_device "u1" "d1" false
      [⟨"u1", "d1", "Chrome", 9, 100, "1.2.3.4"⟩]
      = some ⟨"u1", "d1", "Chrome", 9, 100, "1.2.3.4"⟩ ∧
    some (⟨"u1", "d1", "Chrome", 9, 100, "1.2.3.4"⟩ : TwoFactorIncomplete)
      ≠ none :=
  ⟨by rfl, by rfl, by simp⟩

/-- C4 amended: when the feature is enabled, a successful `mark_complete`
followed by `find_by_user_and_device` returns `none`, whether or not a record
for the key existed (deleting an absent key succeeds: the delete returns `Ok`
on every store). -/
theorem mark_complete_then_find_none (cfg : Config) (u d : String) (db : Db)
    (hen : featureDisabled cfg = false) :
    ∃ db', mark_complete cfg u d false db = Except.ok db' ∧
      find_by_user_and_device u d false db' = none := by
  refine ⟨db.filter (fun r => !sameKey u d r), ?_, ?_⟩
  · simp [mark_complete, hen, delete_by_user_and_device]
  · exact find_by_user_and_device_filter_not_key u d db

/-- Witness for the amended C4: enabled config, a store that does hold the
key (and a store effect is observable), the lookup afterwards is `none`. -/
theorem mark_complete_then_find_none_witness :
    ∃ db', mark_complete ⟨900, true⟩ "u1" "d1" false
      [⟨"u1", "d1", "Chrome", 9, 100, "1.2.3.4"⟩] = Except.ok db' ∧
      find_by_user_and_device "u1" "d1" false db' = none :=
  mark_complete_then_find_none ⟨900, true⟩ "u1" "d1"
    [⟨"u1", "d1", "Chrome", 9, 100, "1.2.3.4"⟩] (by decide)

/-- C5: without a storage fault, `find_logins_before` returns exactly the rows
whose `login_time` is strictly below the threshold, returns the empty row set
on the empty table, and leaves the table unchanged. -/
theorem find_logins_before_exact (dt : Int) (db : Db) :
    (∃ rs, find_logins_before dt false db = LoadResult.rows rs ∧
      ∀ r, r ∈ rs ↔ (r ∈ db ∧ r.login_time < dt)) ∧
    find_logins_before dt false ([] : Db) = LoadResult.rows [] ∧
    applyOp (Op.findLoginsBefore dt false) db = Except.ok db := by
  refine ⟨⟨db.filter (fun r => r.login_time < dt), rfl, ?_⟩, rfl, rfl⟩
  intro r
  simp [List.mem_filter]

/-- Witness for C5 at a concrete threshold and store: the record at time 100
is stale for threshold 101 and the scan leaves the table as it was. -/
theorem find_logins_before_exact_witness :
    (∃ rs, find_logins_before 101 false
        [⟨"u1", "d1", "Chrome", 9, 100, "1.2.3.4"⟩] = LoadResult.rows rs ∧
      ∀ r, r ∈ rs ↔
        (r ∈ [⟨"u1", "d1", "Chrome", 9, 100, "1.2.3.4"⟩] ∧ r.login_time < 101)) ∧
    find_logins_before 101 false ([] : Db) = LoadResult.rows [] ∧
    applyOp (Op.findLoginsBefore 101 false)
      [⟨"u1", "d1", "Chrome", 9, 100, "1.2.3.4"⟩]
      = Except.ok [⟨"u1", "d1", "Chrome", 9, 100, "1.2.3.4"⟩] :=
  find_logins_before_exact 101 [⟨"u1", "d1", "Chrome", 9, 100, "1.2.3.4"⟩]

/-- C6 counterexample: not every operation surfaces a storage failure as an
error result.  With a record present, a faulted `find_by_user_and_device`
returns `none` — the same value as a genuine miss, no error result — and a
faulted `find_logins_before` aborts instead of returning an error. -/
theorem find_storage_error_swallowed :
    find_by_user_and_device "u1" "d1" true
      [⟨"u1", "d1", "Chrome", 9, 100, "1.2.3.4"⟩] = none ∧
    find_by_user_and_device "u1" "d1" false
      [⟨"u1", "d1", "Chrome", 9, 100, "1.2.3.4"⟩]
      = some ⟨"u1", "d1", "Chrome", 9, 100, "1.2.3.4"⟩ ∧
    find_logins_before 200 true [⟨"u1", "d1", "Chrome", 9, 100, "1.2.3.4"⟩]
      = LoadResult.panicked "Error loading twofactor_incomplete" :=
  ⟨rfl, by rfl, rfl⟩

/-- C6 amended: every mutating operation propagates a storage failure of its
write as an error result, with no retry and no recovery; the two read paths
do not (`find_by_user_and_device` yields `none`, `find_logins_before`
aborts). -/
theorem mutating_storage_errors_propagate (cfg : Config) (u d n : String)
    (ty : Int) (ip : String) (t : Int) (u2 d2 : String)
    (r : TwoFactorIncomplete) (db : Db)
    (hen : featureDisabled cfg = false)
    (habs : find_by_user_and_device u d false db = none) :
    mark_incomplete cfg u d n ty ip t false true db
      = Except.error "Error adding twofactor_incomplete record" ∧
    mark_complete cfg u2 d2 true db
      = Except.error "Error in twofactor_incomplete::delete_by_user_and_device()" ∧
    delete_by_user_and_device u2 d2 true db
      = Except.error "Error in twofactor_incomplete::delete_by_user_and_device()" ∧
    TwoFactorIncomplete.delete r true db
      = Except.error "Error in twofactor_incomplete::delete_by_user_and_device()" ∧
    delete_all_by_user u2 true db
      = Except.error "Error in twofactor_incomplete::delete_all_by_user()" :=
  ⟨by simp [mark_incomplete, hen, habs],
   by simp [mark_complete, hen, delete_by_user_and_device],
   rfl, rfl, rfl⟩

/-- Witness for the amended C6 at an enabled config and empty store. -/
theorem mutating_storage_errors_propagate_witness :
    mark_incomplete ⟨900, true⟩ "u1" "d1" "Chrome" 9 "1.2.3.4" 100 false true []
      = Except.error "Error adding twofactor_incomplete record" ∧
    mark_complete ⟨900, true⟩ "u2" "d2" true []
      = Except.error "Error in twofactor_incomplete::delete_by_user_and_device()" ∧
    delete_by_user_and_device "u2" "d2" true []
      = Except.error "Error in twofactor_incomplete::delete_by_user_and_device()" ∧
    TwoFactorIncomplete.delete ⟨"u1", "d1", "Chrome", 9, 100, "1.2.3.4"⟩ true []
      = Except.error "Error in twofactor_incomplete::delete_by_user_and_device()" ∧
    delete_all_by_user "u2" true []
      = Except.error "Error in twofactor_incomplete::delete_all_by_user()" :=
  mutating_storage_errors_propagate ⟨900, true⟩ "u1" "d1" "Chrome" 9 "1.2.3.4"
    100 "u2" "d2" ⟨"u1", "d1", "Chrome", 9, 100, "1.2.3.4"⟩ [] (by decide) (by rfl)

/-- C7 counterexample: `delete_all_by_user` is a mutating call that takes no
configuration at all and performs storage work unconditionally — here it
deletes a row even though no switch was consulted (so in particular when the
feature is disabled). -/
theorem delete_all_by_user_unconditioned :
    delete_all_by_user "u1" false [⟨"u1", "d1", "Chrome", 9, 100, "1.2.3.4"⟩]
      = Except.ok [] ∧
    ([] : Db) ≠ [⟨"u1", "d1", "Chrome", 9, 100, "1.2.3.4"⟩] :=
  ⟨by rfl, by simp⟩

/-- C7 amended: only `mark_incomplete` and `mark_complete` read the two
switches and short-circuit with no storage work when either disables the
feature; the delete operations perform their storage work regardless of any
configuration. -/
theorem config_gates_only_mark_ops (cfg : Config) (u d n : String) (ty : Int)
    (ip : String) (t : Int) (ff insf f : Bool) (db : Db)
    (hdis : featureDisabled cfg = true) :
    mark_incomplete cfg u d n ty ip t ff insf db = Except.ok db ∧
    mark_complete cfg u d f db = Except.ok db ∧
    delete_by_user_and_device u d false db
      = Except.ok (db.filter (fun r => !sameKey u d r)) ∧
    delete_all_by_user u false db
      = Except.ok (db.filter (fun r => !(r.user_uuid == u))) :=
  ⟨by simp [mark_incomplete, hdis], by simp [mark_complete, hdis], rfl, rfl⟩

/-- Witness for the amended C7: mail disabled, the mark operations are no-ops
with their fault flags set, the deletes still act on the store. -/
theorem config_gates_only_mark_ops_witness :
    mark_incomplete ⟨900, false⟩ "u1" "d1" "Chrome" 9 "1.2.3.4" 100 true true
      [⟨"u1", "d1", "Chrome", 9, 100, "1.2.3.4"⟩]
      = Except.ok [⟨"u1", "d1", "Chrome", 9, 100, "1.2.3.4"⟩] ∧
    mark_complete ⟨900, false⟩ "u1" "d1" true
      [⟨"u1", "d1", "Chrome", 9, 100, "1.2.3.4"⟩]
      = Except.ok [⟨"u1", "d1", "Chrome", 9, 100, "1.2.3.4"⟩] ∧
    delete_by_user_and_device "u1" "d1" false
      [⟨"u1", "d1", "Chrome", 9, 100, "1.2.3.4"⟩]
      = Except.ok ([⟨"u1", "d1", "Chrome", 9, 100, "1.2.3.4"⟩].filter
          (fun r => !sameKey "u1" "d1" r)) ∧
    delete_all_by_user "u1" false [⟨"u1", "d1", "Chrome", 9, 100, "1.2.3.4"⟩]
      = Except.ok ([⟨"u1", "d1", "Chrome", 9, 100, "1.2.3.4"⟩].filter
          (fun r => !(r.user_uuid == "u1"))) :=
  config_gates_only_mark_ops ⟨900, false⟩ "u1" "d1" "Chrome" 9 "1.2.3.4" 100
    true true true [⟨"u1", "d1", "Chrome", 9, 100, "1.2.3.4"⟩] (by decide)

/-- C8: a successful `delete_all_by_user u` leaves no record of user `u`,
keeps every record of every other user, only ever removes records, and
succeeds on any store — in particular one holding nothing for `u`. -/
theorem delete_all_by_user_removes_user (u : String) (db : Db) :
    ∃ db', delete_all_by_user u false db = Except.ok db' ∧
      (∀ r, r ∈ db' → r.user_uuid ≠ u) ∧
      (∀ r, r ∈ db → r.user_uuid ≠ u → r ∈ db') ∧
      (∀ r, r ∈ db' → r ∈ db) := by
  refine ⟨db.filter (fun r => !(r.user_uuid == u)), rfl, ?_, ?_, ?_⟩
  · intro r hr
    have h2 := (List.mem_filter.mp hr).2
    simpa using h2
  · intro r hr hne
    exact List.mem_filter.mpr ⟨hr, by simpa using hne⟩
  · intro r hr
    exact (List.mem_filter.mp hr).1

/-- Witness for C8, the spec's scenario: U1 owns D1 and D2, U2 owns D3;
deleting U1's records keeps U2's. -/
theorem delete_all_by_user_removes_user_witness :
    ∃ db', delete_all_by_user "U1" false
        [⟨"U1", "D1", "a", 1, 10, "ip1"⟩, ⟨"U1", "D2", "b", 2, 20, "ip2"⟩,
         ⟨"U2", "D3", "c", 3, 30, "ip3"⟩] = Except.ok db' ∧
      (∀ r, r ∈ db' → r.user_uuid ≠ "U1") ∧
      (∀ r, r ∈ [⟨"U1", "D1", "a", 1, 10, "ip1"⟩, ⟨"U1", "D2", "b", 2, 20, "ip2"⟩,
         ⟨"U2", "D3", "c", 3, 30, "ip3"⟩] → r.user_uuid ≠ "U1" → r ∈ db') ∧
      (∀ r, r ∈ db' → r ∈ [⟨"U1", "D1", "a", 1, 10, "ip1"⟩,
         ⟨"U1", "D2", "b", 2, 20, "ip2"⟩, ⟨"U2", "D3", "c", 3, 30, "ip3"⟩]) :=
  delete_all_by_user_removes_user "U1"
    [⟨"U1", "D1", "a", 1, 10, "ip1"⟩, ⟨"U1", "D2", "b", 2, 20, "ip2"⟩,
     ⟨"U2", "D3", "c", 3, 30, "ip3"⟩]

theorem find_by_user_and_device_filter_not_user (u d : String) (db : Db) :
    find_by_user_and_device u d false
      (db.filter (fun r => !(r.user_uuid == u))) = none := by
  unfold find_by_user_and_device
  simp only [Bool.false_eq_true, if_false]
  rw [List.find?_eq_none]
  intro x hx hc
  have h2 := (List.mem_filter.mp hx).2
  rw [sameKey, Bool.and_eq_true, beq_iff_eq, beq_iff_eq] at hc
  rw [Bool.not_eq_true', beq_eq_false_iff_ne] at h2
  exact h2 hc.1

/-- C9: the `.ok()` on the lookup makes a storage failure indistinguishable
from an absent record — a faulted `find_by_user_and_device` is `none` on
every store — and `mark_incomplete`'s existence check therefore treats the
failed lookup as "no record" and goes on to attempt the insert, which here
runs into the table's duplicate-key rejection. -/
theorem find_fault_treated_as_absent (cfg : Config)
    (u d n : String) (ty : Int) (ip : String) (t : Int) (db : Db)
    (hen : featureDisabled cfg = false)
    (hex : ∃ r, r ∈ db ∧ sameKey u d r = true) :
    (∀ db2 : Db, find_by_user_and_device u d true db2 = none) ∧
    mark_incomplete cfg u d n ty ip t true false db
      = Except.error "Error adding twofactor_incomplete record" := by
  refine ⟨fun db2 => rfl, ?_⟩
  obtain ⟨r, hr, hp⟩ := hex
  have hany : db.any (sameKey u d) = true := List.any_eq_true.mpr ⟨r, hr, hp⟩
  simp [mark_incomplete, hen, find_by_user_and_device, insertInto, hany]

/-- Witness for C9: enabled config, a store holding (u1, d1); the faulted
lookup is `none` (checked at that same store) and the call attempts and
fails the insert. -/
theorem find_fault_treated_as_absent_witness :
    (∀ db2 : Db, find_by_user_and_device "u1" "d1" true db2 = none) ∧
    mark_incomplete ⟨900, true⟩ "u1" "d1" "Firefox" 3 "5.6.7.8" 110 true false
      [⟨"u1", "d1", "Chrome", 9, 100, "1.2.3.4"⟩]
      = Except.error "Error adding twofactor_incomplete record" :=
  find_fault_treated_as_absent ⟨900, true⟩ "u1" "d1" "Firefox" 3 "5.6.7.8" 110
    [⟨"u1", "d1", "Chrome", 9, 100, "1.2.3.4"⟩] (by decide)
    ⟨⟨"u1", "d1", "Chrome", 9, 100, "1.2.3.4"⟩, by simp, by decide⟩

/-- C10: with the feature disabled, `mark_complete` succeeds without deleting
— a record created while the feature was enabled is still found afterwards —
while the ungated deletes (`delete` on the record, `delete_by_user_and_device`,
`delete_all_by_user`) do remove it. -/
theorem mark_complete_disabled_record_persists (cfg : Config) (u d : String)
    (f : Bool) (db : Db) (r : TwoFactorIncomplete)
    (hdis : featureDisabled cfg = true)
    (hfind : find_by_user_and_device u d false db = some r) :
    mark_complete cfg u d f db = Except.ok db ∧
    find_by_user_and_device u d false db = some r ∧
    TwoFactorIncomplete.delete r false db = delete_by_user_and_device u d false db ∧
    (∀ db', delete_by_user_and_device u d false db = Except.ok db' →
      find_by_user_and_device u d false db' = none) ∧
    (∀ db', delete_all_by_user u false db = Except.ok db' →
      find_by_user_and_device u d false db' = none) := by
  obtain ⟨hmem, hu, hd⟩ := find_by_user_and_device_some_key hfind
  refine ⟨by simp [mark_complete, hdis], hfind, ?_, ?_, ?_⟩
  · rw [TwoFactorIncomplete.delete, hu, hd]
  · intro db' h
    simp only [delete_by_user_and_device, Bool.false_eq_true, if_false,
      Except.ok.injEq] at h
    rw [← h]
    exact find_by_user_and_device_filter_not_key u d db
  · intro db' h
    simp only [delete_all_by_user, Bool.false_eq_true, if_false,
      Except.ok.injEq] at h
    rw [← h]
    exact find_by_user_and_device_filter_not_user u d db

/-- Witness for C10 at time limit 0, a store holding the record for
(u1, d1). -/
theorem mark_complete_disabled_record_persists_witness :
    mark_complete ⟨0, true⟩ "u1" "d1" true
      [⟨"u1", "d1", "Chrome", 9, 100, "1.2.3.4"⟩]
      = Except.ok [⟨"u1", "d1", "Chrome", 9, 100, "1.2.3.4"⟩] ∧
    find_by_user_and_device "u1" "d1" false
      [⟨"u1", "d1", "Chrome", 9, 100, "1.2.3.4"⟩]
      = some ⟨"u1", "d1", "Chrome", 9, 100, "1.2.3.4"⟩ ∧
    TwoFactorIncomplete.delete ⟨"u1", "d1", "Chrome", 9, 100, "1.2.3.4"⟩ false
        [⟨"u1", "d1", "Chrome", 9, 100, "1.2.3.4"⟩]
      = delete_by_user_and_device "u1" "d1" false
        [⟨"u1", "d1", "Chrome", 9, 100, "1.2.3.4"⟩] ∧
    (∀ db', delete_by_user_and_device "u1" "d1" false
        [⟨"u1", "d1", "Chrome", 9, 100, "1.2.3.4"⟩] = Except.ok db' →
      find_by_user_and_device "u1" "d1" false db' = none) ∧
    (∀ db', delete_all_by_user "u1" false
        [⟨"u1", "d1", "Chrome", 9, 100, "1.2.3.4"⟩] = Except.ok db' →
      find_by_user_and_device "u1" "d1" false db' = none) :=
  mark_complete_disabled_record_persists ⟨0, true⟩ "u1" "d1" true
    [⟨"u1", "d1", "Chrome", 9, 100, "1.2.3.4"⟩]
    ⟨"u1", "d1", "Chrome", 9, 100, "1.2.3.4"⟩ (by decide) (by rfl)

end Vaultwarden
